import Mathlib

/-!
Verification development for the SmartDeck repository (src/app_focus.py and
src/chrome_tab_switcher.py), a Windows application-focus helper and a Chrome
tab switcher.  The Python code is shallowly embedded below: pure decision
logic is translated to executable Lean functions; interactions with the OS
(window enumeration results, foreground-window reads, exceptions raised by
win32 calls, key presses) are made explicit as function parameters or as
event lists in the results.
-/

/-! ## Python string primitives

Python's `needle in hay` substring test and `str.lower()` are modelled over
the character lists of Lean strings so that all proofs and concrete
evaluations reduce in the kernel. -/

/-- `strStarts n h` is true when character list `n` is an initial segment of `h`. -/
def strStarts : List Char → List Char → Bool
  | [], _ => true
  | _ :: _, [] => false
  | a :: as, b :: bs => a == b && strStarts as bs

/-- `strHasSub n h` is true when `n` occurs as a contiguous segment of `h`
(Python `n in h` on strings; the empty needle always matches). -/
def strHasSub (n : List Char) : List Char → Bool
  | [] => strStarts n []
  | c :: rest => strStarts n (c :: rest) || strHasSub n rest

/-- Python's `needle in hay` on strings. -/
def pyIn (needle hay : String) : Bool :=
  strHasSub needle.data hay.data

/-- Python's `s.lower()` (ASCII case folding, which is all the sources use). -/
def pyLower (s : String) : String :=
  String.mk (s.data.map Char.toLower)

/-- Python's `s.split('.')[0]`: the characters before the first dot
(the whole string when there is no dot). -/
def firstLabel (s : String) : String :=
  String.mk (s.data.takeWhile (fun c => c != '.'))

/-! ## Window snapshot data model (app_focus.py)

`find_app_windows` enumerates all top-level windows; each enumerated window
carries its handle, window class, title and owning process id (`none` when
`GetWindowThreadProcessId` raised). -/

/-- One enumerated top-level window as collected by `enum_all_windows`. -/
structure RawWindow where
  hwnd : Nat
  className : String
  title : String
  pid : Option Nat
deriving DecidableEq

/-- Per-application matching rule, the `app_configs` entry used by
`find_app_windows` (defaults: everything empty / false). -/
structure AppRule where
  window_classes : List String
  title_required : Bool
  title_includes : List String
  title_excludes : List String
deriving DecidableEq

/-- The window classes skipped unconditionally inside `enum_all_windows`. -/
def systemClasses : List String :=
  ["ToolTip", "SysListView32", "Button", "Static", "DummyDWMListenerWindow"]

/-- The inclusion test of `find_app_windows` for a single window: the UWP
branch when the rule names `ApplicationFrameWindow` and the window has that
class, otherwise the OR of process-id match, window-class match,
title-include match, and case-insensitive app-name-in-title match. -/
def windowMatches (appName : String) (rule : AppRule) (appPids : List Nat)
    (isUwp : Bool) (w : RawWindow) : Bool :=
  if isUwp && w.className == "ApplicationFrameWindow" then
    !rule.title_includes.isEmpty
      && rule.title_includes.any (fun inc => pyIn inc w.title)
  else
    (match w.pid with
     | some p => appPids.contains p
     | none => false)
    || (!rule.window_classes.isEmpty && rule.window_classes.contains w.className)
    || (!rule.title_includes.isEmpty
          && rule.title_includes.any (fun inc => pyIn inc w.title))
    || pyIn (pyLower appName) (pyLower w.title)

/-- The per-window decision of `find_app_windows`: `none` when the window is
not matched or is rejected by a filter, otherwise the `(hwnd, pid, title)`
tuple appended to `app_windows` (pid `None` becomes 0, an empty title becomes
`"Window (<class>)"`). -/
def windowEntry (appName : String) (rule : AppRule) (appPids : List Nat)
    (isUwp : Bool) (w : RawWindow) : Option (Nat × Nat × String) :=
  if !(windowMatches appName rule appPids isUwp w) then none
  else if rule.title_required && w.title == "" then none
  else if rule.title_excludes.any (fun e => pyIn e w.title) then none
  else some (w.hwnd, w.pid.getD 0,
    if w.title == "" then "Window (" ++ w.className ++ ")" else w.title)

/-- `AppFocuser.find_app_windows`, given the enumeration snapshot (in
enumeration order), the matched process-id set and the application rule.
The UWP flag is computed from the rule exactly as in the source. -/
def find_app_windows (appName : String) (rule : AppRule) (appPids : List Nat)
    (snapshot : List RawWindow) : List (Nat × Nat × String) :=
  let isUwp := !rule.window_classes.isEmpty
      && rule.window_classes.contains "ApplicationFrameWindow"
  (snapshot.filter (fun w => !(systemClasses.contains w.className))).filterMap
    (windowEntry appName rule appPids isUwp)

/-! ## Helper lemmas about `windowEntry` -/

/-- An entry produced by `windowEntry` keeps the window's handle, and can only
be produced when the title-exclude filter did not fire. -/
theorem windowEntry_some {appName : String} {rule : AppRule} {appPids : List Nat}
    {isUwp : Bool} {w : RawWindow} {e : Nat × Nat × String}
    (h : windowEntry appName rule appPids isUwp w = some e) :
    e.1 = w.hwnd ∧ rule.title_excludes.any (fun x => pyIn x w.title) = false := by
  unfold windowEntry at h
  split at h
  · exact absurd h (by simp)
  · split at h
    · exact absurd h (by simp)
    · split at h
      · exact absurd h (by simp)
      · rename_i hexcl
        refine ⟨?_, by simpa using hexcl⟩
        cases h
        rfl

/-- The handles of the filterMap output form a sublist of the input handles. -/
theorem filterMap_windowEntry_hwnd_sublist (appName : String) (rule : AppRule)
    (appPids : List Nat) (isUwp : Bool) :
    ∀ l : List RawWindow,
      List.Sublist
        ((l.filterMap (windowEntry appName rule appPids isUwp)).map (fun e => e.1))
        (l.map RawWindow.hwnd)
  | [] => List.Sublist.slnil
  | w :: rest => by
    rw [List.filterMap_cons]
    cases hw : windowEntry appName rule appPids isUwp w with
    | none =>
      exact List.Sublist.cons _
        (filterMap_windowEntry_hwnd_sublist appName rule appPids isUwp rest)
    | some e =>
      rw [List.map_cons, List.map_cons, (windowEntry_some hw).1]
      exact List.Sublist.cons₂ _
        (filterMap_windowEntry_hwnd_sublist appName rule appPids isUwp rest)

/-! ## C2 and C3 -/

/-- C2: for every rule, process-id set and snapshot, a window (identified by
its handle) whose title contains one of the rule's title-exclude substrings is
never part of the matched set returned by `find_app_windows`, no matter which
inclusion criterion it satisfied. -/
theorem excluded_title_never_in_matched_set (appName : String) (rule : AppRule)
    (appPids : List Nat) (snapshot : List RawWindow) (h : Nat)
    (hex : ∀ w ∈ snapshot, w.hwnd = h →
      rule.title_excludes.any (fun e => pyIn e w.title) = true) :
    ∀ e ∈ find_app_windows appName rule appPids snapshot, e.1 ≠ h := by
  intro e he heq
  unfold find_app_windows at he
  rw [List.mem_filterMap] at he
  obtain ⟨w, hwmem, hwe⟩ := he
  have hw' : w ∈ snapshot := List.mem_of_mem_filter hwmem
  obtain ⟨h1, h2⟩ := windowEntry_some hwe
  have := hex w hw' (by rw [← h1, heq])
  rw [this] at h2
  exact absurd h2 (by simp)

/-- C2 witness: a concrete "bcompare"-style rule; the window with handle 1 has
the excluded substring "Home" in its title and is absent from the result. -/
theorem excluded_title_never_in_matched_set_witness :
    (∀ w ∈ ([⟨1, "TViewForm", "Home", some 4⟩] : List RawWindow), w.hwnd = 1 →
      (AppRule.mk ["TViewForm"] true ["Compare"] ["Home"]).title_excludes.any
        (fun e => pyIn e w.title) = true) ∧
    ∀ e ∈ find_app_windows "bcompare" (AppRule.mk ["TViewForm"] true ["Compare"] ["Home"])
        [4] [⟨1, "TViewForm", "Home", some 4⟩], e.1 ≠ 1 :=
  ⟨by decide,
   excluded_title_never_in_matched_set "bcompare"
     (AppRule.mk ["TViewForm"] true ["Compare"] ["Home"]) [4]
     [⟨1, "TViewForm", "Home", some 4⟩] 1 (by decide)⟩

/-- C3 counterexample: `find_app_windows` never sorts; a snapshot enumerated
with handle 5 before handle 3 (both matching the app by name-in-title) yields
the result in enumeration order `[5, 3]`, which is not ascending by handle. -/
theorem find_app_windows_not_sorted_counterexample :
    ((find_app_windows "calc" (AppRule.mk [] false [] []) []
        [⟨5, "X", "calcwin", some 9⟩, ⟨3, "X", "calcwin", some 9⟩]).map
      (fun e => e.1)) = [5, 3] ∧
    ¬ List.Pairwise (fun a b => a ≤ b)
      ((find_app_windows "calc" (AppRule.mk [] false [] []) []
          [⟨5, "X", "calcwin", some 9⟩, ⟨3, "X", "calcwin", some 9⟩]).map
        (fun e => e.1)) := by
  constructor
  · decide
  · decide

/-- C3 amended: the result of `find_app_windows` preserves the snapshot's
enumeration order — its handles form a sublist of the snapshot's handles in
order — so it is deterministic given the same snapshot in the same order, but
it is not re-sorted by handle. -/
theorem find_app_windows_preserves_enumeration_order (appName : String)
    (rule : AppRule) (appPids : List Nat) (snapshot : List RawWindow) :
    List.Sublist
      ((find_app_windows appName rule appPids snapshot).map (fun e => e.1))
      (snapshot.map RawWindow.hwnd) := by
  unfold find_app_windows
  exact (filterMap_windowEntry_hwnd_sublist appName rule appPids _ _).trans
    ((List.filter_sublist snapshot).map RawWindow.hwnd)

/-! ## Window Cycle Selector (app_focus.py: focus_app, cycle_app_windows)

`focus_app` and `cycle_app_windows` both pick the window to focus from the
matched set, the current foreground window and the persisted `last_focused`
entry.  The models below cover the selection logic: OS reads
(`GetForegroundWindow`, `IsWindow`) and `focus_window` outcomes are
parameters.  The Ctrl-pressed launch branch of `focus_app` is outside the
selection policy and is not modelled (the model covers invocations where the
Ctrl key is not held). -/

/-- One element of the list returned by `find_app_windows`. -/
structure AppWindow where
  hwnd : Nat
  pid : Nat
  title : String
deriving DecidableEq

/-- What the caller does next: launch a new instance, or call `focus_window`
on a handle. -/
inductive FocusAction where
  | launch : FocusAction
  | focus (hwnd : Nat) : FocusAction
deriving DecidableEq

/-- The `for i, (hwnd, _, title) in enumerate(windows)` search for the first
index whose handle equals `h`. -/
def findIndexFrom (h : Nat) : List AppWindow → Nat → Option Nat
  | [], _ => none
  | w :: rest, i => if w.hwnd == h then some i else findIndexFrom h rest (i + 1)

/-- `AppFocuser.focus_app` after `find_app_windows` returned `windows`:
returns the action taken and whether the persisted `last_focused` entry was
deleted as stale.  `last` is the persisted entry (`none` when absent; Python
treats a stored 0 as absent via truthiness), `current` the foreground handle,
`isWindow` the OS `IsWindow` test. -/
def focus_app_select (windows : List AppWindow) (current : Nat) (last : Option Nat)
    (isWindow : Nat → Bool) : FocusAction × Bool :=
  if windows.isEmpty then (FocusAction.launch, false)
  else
    let lastVal := last.getD 0
    let lastTruthy := lastVal != 0
    let cleared := lastTruthy && !(isWindow lastVal)
    let lastValid := lastTruthy && isWindow lastVal
    let n := windows.length
    let curIdx := findIndexFrom current windows 0
    let inner : Option FocusAction :=
      if lastValid && current == lastVal then
        match curIdx with
        | some i =>
          if n > 1 then
            some (FocusAction.focus (windows.getD ((i + 1) % n) ⟨0, 0, ""⟩).hwnd)
          else none
        | none => none
      else none
    match inner with
    | some a => (a, cleared)
    | none =>
      match curIdx with
      | some i =>
        if n > 1 then
          (FocusAction.focus (windows.getD ((i + 1) % n) ⟨0, 0, ""⟩).hwnd, cleared)
        else if lastValid then (FocusAction.focus lastVal, cleared)
        else (FocusAction.focus (windows.getD 0 ⟨0, 0, ""⟩).hwnd, cleared)
      | none =>
        if lastValid then (FocusAction.focus lastVal, cleared)
        else (FocusAction.focus (windows.getD 0 ⟨0, 0, ""⟩).hwnd, cleared)

/-- `AppFocuser.cycle_app_windows` after `find_app_windows` returned
`windows`: returns (overall success, whether the stale `last_focused` entry
was deleted, the handles passed to `focus_window` in order).  `focusOk` gives
the outcome of each `focus_window` call. -/
def cycle_app_windows_f (windows : List AppWindow) (current : Nat) (last : Option Nat)
    (appName : String) (focusOk : Nat → Bool) : Bool × Bool × List Nat :=
  if windows.isEmpty then (false, false, [])
  else
    let lastVal := last.getD 0
    let lastTruthy := lastVal != 0
    let inSet := windows.any (fun w => w.hwnd == lastVal)
    let cleared := lastTruthy && !inSet
    let n := windows.length
    let w0 := (windows.getD 0 ⟨0, 0, ""⟩).hwnd
    if n == 1 && pyLower appName == "sublime_text" then
      (focusOk w0, cleared, [w0])
    else
      match findIndexFrom current windows 0 with
      | none => (focusOk w0, cleared, [w0])
      | some i =>
        if n == 1 then (focusOk w0, cleared, [w0])
        else
          let ni := (i + 1) % n
          let nxt := (windows.getD ni ⟨0, 0, ""⟩).hwnd
          if focusOk nxt then (true, cleared, [nxt])
          else
            let nxt2 := (windows.getD ((ni + 1) % n) ⟨0, 0, ""⟩).hwnd
            (focusOk nxt2, cleared, [nxt, nxt2])

/-- A handle absent from the window list is found at no index. -/
theorem findIndexFrom_eq_none {c : Nat} :
    ∀ (ws : List AppWindow) (i : Nat), (∀ w ∈ ws, w.hwnd ≠ c) →
      findIndexFrom c ws i = none
  | [], _, _ => rfl
  | w :: rest, i, h => by
    unfold findIndexFrom
    rw [if_neg]
    · exact findIndexFrom_eq_none rest (i + 1) (fun x hx => h x (List.mem_cons_of_mem _ hx))
    · simp only [beq_iff_eq]
      exact h w (List.mem_cons_self _ _)

/-- The `cleared` component of `cycle_app_windows_f` only depends on the
truthiness of the stored handle and its absence from the matched set. -/
theorem cycle_app_windows_f_cleared (windows : List AppWindow) (current : Nat)
    (last : Option Nat) (appName : String) (focusOk : Nat → Bool)
    (hne : windows ≠ []) :
    (cycle_app_windows_f windows current last appName focusOk).2.1
      = ((last.getD 0 != 0) && !(windows.any (fun w => w.hwnd == last.getD 0))) := by
  have hne' : windows.isEmpty = false := by
    cases windows with
    | nil => exact absurd rfl hne
    | cons a t => rfl
  unfold cycle_app_windows_f
  rw [hne']
  simp only [Bool.false_eq_true, if_false]
  repeat' split
  all_goals rfl

/-- The `cleared` component of `focus_app_select` only depends on the
truthiness of the stored handle and the OS `IsWindow` test. -/
theorem focus_app_select_cleared (windows : List AppWindow) (current : Nat)
    (last : Option Nat) (isWindow : Nat → Bool) (hne : windows ≠ []) :
    (focus_app_select windows current last isWindow).2
      = ((last.getD 0 != 0) && !(isWindow (last.getD 0))) := by
  have hne' : windows.isEmpty = false := by
    cases windows with
    | nil => exact absurd rfl hne
    | cons a t => rfl
  unfold focus_app_select
  rw [hne']
  simp only [Bool.false_eq_true, if_false]
  repeat' split
  all_goals rfl

/-! ## C1 -/

/-- C1 counterexample: matched set `[1, 2, 3]`, persisted last-focused handle
3 (present in the set, live), foreground handle 1 (a different member of the
set).  The claim demands that 3 be selected; `focus_app` instead round-robins
from the foreground window and selects 2. -/
theorem focus_app_resume_priority_counterexample :
    (3 ∈ ([⟨1, 0, "a"⟩, ⟨2, 0, "b"⟩, ⟨3, 0, "c"⟩] : List AppWindow).map AppWindow.hwnd) ∧
    (3 : Nat) ≠ 1 ∧
    (focus_app_select [⟨1, 0, "a"⟩, ⟨2, 0, "b"⟩, ⟨3, 0, "c"⟩] 1 (some 3)
        (fun _ => true)).1 = FocusAction.focus 2 ∧
    FocusAction.focus 2 ≠ FocusAction.focus 3 := by
  refine ⟨by decide, by decide, by decide, by decide⟩

/-- C1 amended: `focus_app` selects the persisted last-focused handle only
when that handle is nonzero and live (`IsWindow`) and no member of the
matched set is the current foreground window; when the foreground window is
in the matched set, round-robin cycling takes priority over the persisted
handle. -/
theorem focus_app_resume_when_foreground_not_matched (windows : List AppWindow)
    (current l : Nat) (isWindow : Nat → Bool) (hne : windows ≠ [])
    (hl : l ≠ 0) (hlive : isWindow l = true)
    (hcur : ∀ w ∈ windows, w.hwnd ≠ current) :
    (focus_app_select windows current (some l) isWindow).1 = FocusAction.focus l := by
  have hne' : windows.isEmpty = false := by
    cases windows with
    | nil => exact absurd rfl hne
    | cons a t => rfl
  have hidx : findIndexFrom current windows 0 = none :=
    findIndexFrom_eq_none windows 0 hcur
  have hl' : (l != 0) = true := by simpa using hl
  unfold focus_app_select
  rw [hne']
  simp [hidx, hl', hlive]

/-- C1 amended witness: single live last-focused handle 42, foreground 99 not
in the matched set: `focus_app` selects 42. -/
theorem focus_app_resume_when_foreground_not_matched_witness :
    (([⟨1, 0, "a"⟩] : List AppWindow) ≠ []) ∧ ((42 : Nat) ≠ 0) ∧
    ((fun _ => true) 42 = true) ∧
    (∀ w ∈ ([⟨1, 0, "a"⟩] : List AppWindow), w.hwnd ≠ 99) ∧
    (focus_app_select [⟨1, 0, "a"⟩] 99 (some 42) (fun _ => true)).1
      = FocusAction.focus 42 :=
  ⟨by decide, by decide, rfl, by decide,
   focus_app_resume_when_foreground_not_matched [⟨1, 0, "a"⟩] 99 42 (fun _ => true)
     (by decide) (by decide) rfl (by decide)⟩

/-! ## C5 -/

/-- C5 counterexample: persisted handle 5 is absent from the matched set
`[1, 2]` but the OS still reports it live; the claim demands the entry be
cleared before applying the policy, yet `focus_app` keeps the entry
(cleared = false) and even selects the absent handle 5. -/
theorem focus_app_stale_clearing_counterexample :
    ((5 : Nat) ∉ ([⟨1, 0, "a"⟩, ⟨2, 0, "b"⟩] : List AppWindow).map AppWindow.hwnd) ∧
    (focus_app_select [⟨1, 0, "a"⟩, ⟨2, 0, "b"⟩] 7 (some 5) (fun _ => true)).2 = false ∧
    (focus_app_select [⟨1, 0, "a"⟩, ⟨2, 0, "b"⟩] 7 (some 5) (fun _ => true)).1
      = FocusAction.focus 5 := by
  refine ⟨by decide, by decide, by decide⟩

/-- C5 amended: `cycle_app_windows` clears the persisted entry exactly when
the stored handle is absent from the matched set, but `focus_app` clears it
only when the OS reports the handle dead — a live handle absent from the
matched set is kept by `focus_app`. -/
theorem stale_clearing_split_behavior (windows : List AppWindow) (current l : Nat)
    (appName : String) (focusOk isWindow : Nat → Bool)
    (hl : l ≠ 0) (hne : windows ≠ []) :
    ((∀ w ∈ windows, w.hwnd ≠ l) →
      (cycle_app_windows_f windows current (some l) appName focusOk).2.1 = true) ∧
    (isWindow l = true →
      (focus_app_select windows current (some l) isWindow).2 = false) := by
  have hl' : (l != 0) = true := by simpa using hl
  constructor
  · intro habs
    rw [cycle_app_windows_f_cleared windows current (some l) appName focusOk hne]
    have hany : (windows.any (fun w => w.hwnd == l)) = false := by
      simp only [List.any_eq_false, beq_iff_eq]
      exact habs
    simp [hany, hl']
  · intro hlive
    rw [focus_app_select_cleared windows current (some l) isWindow hne]
    simp [hl', hlive]

/-- C5 amended witness: stored handle 5, matched set `[1, 2]`:
`cycle_app_windows` clears the entry; `focus_app` (with 5 reported live)
keeps it. -/
theorem stale_clearing_split_behavior_witness :
    ((5 : Nat) ≠ 0) ∧
    (cycle_app_windows_f [⟨1, 0, "a"⟩, ⟨2, 0, "b"⟩] 7 (some 5) "calc"
        (fun _ => true)).2.1 = true ∧
    (focus_app_select [⟨1, 0, "a"⟩, ⟨2, 0, "b"⟩] 7 (some 5) (fun _ => true)).2 = false :=
  ⟨by decide,
   (stale_clearing_split_behavior [⟨1, 0, "a"⟩, ⟨2, 0, "b"⟩] 7 5 "calc"
     (fun _ => true) (fun _ => true) (by decide) (by decide)).1 (by decide),
   (stale_clearing_split_behavior [⟨1, 0, "a"⟩, ⟨2, 0, "b"⟩] 7 5 "calc"
     (fun _ => true) (fun _ => true) (by decide) (by decide)).2 rfl⟩

/-! ## Persisted configuration (app_focus.json)

The configuration document has four sections; `focus_window` only ever writes
`last_focused[app_name]`.  The `global`, `window_classes` and `app_configs`
sections are opaque type parameters here, which makes the frame property
independent of their representation.  `last_focused` is an association list
with Python-dict update semantics (replace in place, append when absent). -/

/-- The persisted configuration document. -/
structure Config (G W A : Type) where
  globalCfg : G
  window_classes : W
  last_focused : List (String × Nat)
  app_configs : A
deriving DecidableEq

/-- Python dict lookup (`d.get(k)`) on the `last_focused` section. -/
def dictGet (m : List (String × Nat)) (k : String) : Option Nat :=
  match m with
  | [] => none
  | (k0, v0) :: rest => if k0 = k then some v0 else dictGet rest k

/-- Python dict assignment `d[k] = v`: replace the existing entry in place,
append at the end when the key is absent. -/
def dictSet (m : List (String × Nat)) (k : String) (v : Nat) : List (String × Nat) :=
  match m with
  | [] => [(k, v)]
  | (k0, v0) :: rest => if k0 = k then (k0, v) :: rest else (k0, v0) :: dictSet rest k v

/-- `self.config["last_focused"][self.app_name] = hwnd` followed by
`save_config()` (which writes the whole document back). -/
def saveLast {G W A : Type} (cfg : Config G W A) (appName : String) (hwnd : Nat) :
    Config G W A :=
  { cfg with last_focused := dictSet cfg.last_focused appName hwnd }

/-- Updating one key leaves every other key's value unchanged. -/
theorem dictGet_dictSet_ne (m : List (String × Nat)) (k k' : String) (v : Nat)
    (h : k' ≠ k) : dictGet (dictSet m k v) k' = dictGet m k' := by
  induction m with
  | nil =>
    simp only [dictSet, dictGet]
    rw [if_neg (fun hk => h hk.symm)]
  | cons p rest ih =>
    obtain ⟨k0, v0⟩ := p
    by_cases hk : k0 = k
    · subst hk
      have hk0 : k0 ≠ k' := fun hk => h hk.symm
      simp [dictSet, dictGet, hk0]
    · simp only [dictSet, if_neg hk, dictGet]
      split
      · rfl
      · exact ih

/-- Writing the same key/value twice equals writing it once. -/
theorem dictSet_idem (m : List (String × Nat)) (k : String) (v : Nat) :
    dictSet (dictSet m k v) k v = dictSet m k v := by
  induction m with
  | nil => simp [dictSet]
  | cons p rest ih =>
    obtain ⟨k0, v0⟩ := p
    by_cases hk : k0 = k
    · subst hk
      simp [dictSet]
    · simp only [dictSet, if_neg hk]
      rw [ih]

/-- `saveLast` is idempotent. -/
theorem saveLast_idem {G W A : Type} (cfg : Config G W A) (appName : String)
    (hwnd : Nat) :
    saveLast (saveLast cfg appName hwnd) appName hwnd = saveLast cfg appName hwnd := by
  simp [saveLast, dictSet_idem]

/-! ## Focus Escalation Engine (app_focus.py: focus_window)

The outcome of one escalation technique's win32 calls: either some call
raised (the `except` branch logs and moves on), or the calls completed and
`GetForegroundWindow()` then returned the given handle. -/

/-- Outcome of techniques 1, 2 and 4. -/
inductive TechOutcome where
  | throws : TechOutcome
  | fg (n : Nat) : TechOutcome
deriving DecidableEq

/-- Environment of technique 3 (thread attachment): the foreground window and
its liveness, the two thread ids, whether `AttachThreadInput(..., True)`
succeeds, whether the raise/foreground/activate calls raise, the foreground
handle read afterwards, and whether the detach call in `finally` raises. -/
structure Tech3Env where
  curFg : Nat
  curFgIsWindow : Bool
  curThread : Nat
  targetThread : Nat
  attachOk : Bool
  innerThrows : Bool
  newFg : Nat
  detachThrows : Bool
deriving DecidableEq

/-- Thread-attachment events issued by technique 3, in order. -/
inductive T3Event where
  | attach : T3Event
  | detach : T3Event
deriving DecidableEq

/-- Technique 3 of `focus_window`.  Returns
(verification reached, i.e. the config write happened;
technique returned True, i.e. the `return True` survived the `finally`;
the `AttachThreadInput` calls issued, in order).
A raising detach cancels the `return True` (Python `finally` semantics), so
the technique then falls through to technique 4 even though the handle was
already recorded. -/
def technique3 (hwnd : Nat) (e : Tech3Env) : Bool × Bool × List T3Event :=
  if e.curFg != 0 && e.curFgIsWindow then
    if e.curThread != 0 && e.targetThread != 0 && !(e.curThread == e.targetThread) then
      if e.attachOk then
        if e.innerThrows then (false, false, [T3Event.attach, T3Event.detach])
        else if e.newFg == hwnd then
          (true, !e.detachThrows, [T3Event.attach, T3Event.detach])
        else (false, false, [T3Event.attach, T3Event.detach])
      else (false, false, [])
    else (false, false, [])
  else (false, false, [])

/-- Environment of one `focus_window` run: entry `IsWindow` check, whether the
restore-if-minimized phase raised (caught by the outer `except`, returning
False before any technique), and the four technique outcomes. -/
structure FocusEnv where
  isWin : Bool
  preThrows : Bool
  t1 : TechOutcome
  t2 : TechOutcome
  t3 : Tech3Env
  t4 : TechOutcome
deriving DecidableEq

/-- A technique (1, 2 or 4) verifies the window: its calls completed and the
re-read foreground window equals the target handle. -/
def techVerifies (o : TechOutcome) (hwnd : Nat) : Bool :=
  match o with
  | TechOutcome.throws => false
  | TechOutcome.fg n => n == hwnd

/-- `AppFocuser.focus_window`: entry validation, then techniques 1-4 in order;
each technique that verifies records the handle via `saveLast` and returns
True.  Returns (result, updated config, techniques attempted in order). -/
def focus_window {G W A : Type} (cfg : Config G W A) (appName : String) (hwnd : Nat)
    (env : FocusEnv) : Bool × Config G W A × List Nat :=
  if !env.isWin then (false, cfg, [])
  else if env.preThrows then (false, cfg, [])
  else if techVerifies env.t1 hwnd then (true, saveLast cfg appName hwnd, [1])
  else if techVerifies env.t2 hwnd then (true, saveLast cfg appName hwnd, [1, 2])
  else
    let r3 := technique3 hwnd env.t3
    let cfg3 := if r3.1 then saveLast cfg appName hwnd else cfg
    if r3.2.1 then (true, cfg3, [1, 2, 3])
    else if techVerifies env.t4 hwnd then (true, saveLast cfg3 appName hwnd, [1, 2, 3, 4])
    else (false, cfg3, [1, 2, 3, 4])

/-- If technique 3 returned True, it reached verification. -/
theorem technique3_return_implies_verified (hwnd : Nat) (e : Tech3Env)
    (h : (technique3 hwnd e).2.1 = true) : (technique3 hwnd e).1 = true := by
  unfold technique3 at h ⊢
  repeat' split at h
  all_goals simp_all

/-! ## C8 -/

/-- C8: in technique 3, whenever the target thread's input queue is attached
(the `AttachThreadInput(..., True)` call succeeded), the detach call is issued
on every exit path — success, failed verification, or an exception in the
raise/foreground/activate calls — so the event trace is always empty or
exactly attach-then-detach. -/
theorem technique3_attach_always_detached (hwnd : Nat) (e : Tech3Env) :
    (technique3 hwnd e).2.2 = [] ∨
    (technique3 hwnd e).2.2 = [T3Event.attach, T3Event.detach] := by
  unfold technique3
  repeat' split
  all_goals simp

/-! ## C4 -/

/-- C4 counterexample: with techniques 1 and 2 failing, technique 3 verifies
the window as foreground (newFg = 7 = hwnd) and records the handle, but the
detach call in its `finally` raises, which cancels the `return True`; the
engine then still attempts technique 4 and the overall call fails — the claim
says a verifying technique returns success immediately with no later
technique attempted. -/
theorem focus_window_early_return_counterexample :
    (technique3 7 (Tech3Env.mk 1 true 2 3 true false 7 true)).1 = true ∧
    (focus_window (Config.mk () () [("other", 9)] ()) "app" 7
        (FocusEnv.mk true false (TechOutcome.fg 1) (TechOutcome.fg 1)
          (Tech3Env.mk 1 true 2 3 true false 7 true) (TechOutcome.fg 1))).1 = false ∧
    (focus_window (Config.mk () () [("other", 9)] ()) "app" 7
        (FocusEnv.mk true false (TechOutcome.fg 1) (TechOutcome.fg 1)
          (Tech3Env.mk 1 true 2 3 true false 7 true) (TechOutcome.fg 1))).2.2
      = [1, 2, 3, 4] ∧
    (focus_window (Config.mk () () [("other", 9)] ()) "app" 7
        (FocusEnv.mk true false (TechOutcome.fg 1) (TechOutcome.fg 1)
          (Tech3Env.mk 1 true 2 3 true false 7 true) (TechOutcome.fg 1))).2.1
      = saveLast (Config.mk () () [("other", 9)] ()) "app" 7 := by
  refine ⟨by decide, by decide, by decide, by decide⟩

/-- C4 amended: `focus_window` fails fast with no technique attempted when the
handle fails the entry `IsWindow` check (or the restore phase raises); the
techniques run in order 1-4; the first technique whose verification survives
(for technique 3: whose `finally` detach does not cancel the return) records
the handle and returns success with no later technique attempted; when no
technique returns, the overall result is failure after attempting all four.
(The one exception, forced by the counterexample: a verifying technique 3
whose detach raises has already recorded the handle but falls through to
technique 4.) -/
theorem focus_window_escalation_order {G W A : Type} (cfg : Config G W A)
    (appName : String) (hwnd : Nat) (env : FocusEnv) :
    (env.isWin = false → focus_window cfg appName hwnd env = (false, cfg, [])) ∧
    (env.isWin = true → env.preThrows = false →
      ((techVerifies env.t1 hwnd = true →
         focus_window cfg appName hwnd env = (true, saveLast cfg appName hwnd, [1])) ∧
       (techVerifies env.t1 hwnd = false → techVerifies env.t2 hwnd = true →
         focus_window cfg appName hwnd env = (true, saveLast cfg appName hwnd, [1, 2])) ∧
       (techVerifies env.t1 hwnd = false → techVerifies env.t2 hwnd = false →
         (technique3 hwnd env.t3).2.1 = true →
         focus_window cfg appName hwnd env = (true, saveLast cfg appName hwnd, [1, 2, 3])) ∧
       (techVerifies env.t1 hwnd = false → techVerifies env.t2 hwnd = false →
         (technique3 hwnd env.t3).2.1 = false → techVerifies env.t4 hwnd = true →
         focus_window cfg appName hwnd env
           = (true, saveLast cfg appName hwnd, [1, 2, 3, 4])) ∧
       (techVerifies env.t1 hwnd = false → techVerifies env.t2 hwnd = false →
         (technique3 hwnd env.t3).2.1 = false → techVerifies env.t4 hwnd = false →
         (focus_window cfg appName hwnd env).1 = false ∧
         (focus_window cfg appName hwnd env).2.2 = [1, 2, 3, 4]))) := by
  constructor
  · intro hw
    simp [focus_window, hw]
  · intro hw hp
    refine ⟨?_, ?_, ?_, ?_, ?_⟩
    · intro h1
      simp [focus_window, hw, hp, h1]
    · intro h1 h2
      simp [focus_window, hw, hp, h1, h2]
    · intro h1 h2 h3
      have hv := technique3_return_implies_verified hwnd env.t3 h3
      simp [focus_window, hw, hp, h1, h2, h3, hv]
    · intro h1 h2 h3 h4
      simp only [focus_window, hw, hp, h1, h2, h3, h4]
      cases hv : (technique3 hwnd env.t3).1 <;>
        simp [hv, saveLast_idem]
    · intro h1 h2 h3 h4
      simp [focus_window, hw, hp, h1, h2, h3, h4]

/-- C4 amended witness: technique 1 reads foreground 1 ≠ 7 (fails), technique
2 verifies: success, handle recorded, techniques 3-4 never attempted. -/
theorem focus_window_escalation_order_witness :
    (techVerifies (TechOutcome.fg 1) 7 = false) ∧
    (techVerifies (TechOutcome.fg 7) 7 = true) ∧
    focus_window (Config.mk () () [] ()) "app" 7
        (FocusEnv.mk true false (TechOutcome.fg 1) (TechOutcome.fg 7)
          (Tech3Env.mk 0 false 0 0 false false 0 false) (TechOutcome.fg 1))
      = (true, saveLast (Config.mk () () [] ()) "app" 7, [1, 2]) :=
  ⟨by decide, by decide,
   ((focus_window_escalation_order (Config.mk () () [] ()) "app" 7
       (FocusEnv.mk true false (TechOutcome.fg 1) (TechOutcome.fg 7)
         (Tech3Env.mk 0 false 0 0 false false 0 false) (TechOutcome.fg 1))).2
     rfl rfl).2.1 (by decide) (by decide)⟩

/-! ## C10 -/

/-- The configuration after `focus_window` is either untouched or exactly
`saveLast cfg appName hwnd`. -/
theorem focus_window_config_cases {G W A : Type} (cfg : Config G W A)
    (appName : String) (hwnd : Nat) (env : FocusEnv) :
    (focus_window cfg appName hwnd env).2.1 = cfg ∨
    (focus_window cfg appName hwnd env).2.1 = saveLast cfg appName hwnd := by
  unfold focus_window
  cases hw : env.isWin <;> cases hp : env.preThrows <;>
    cases h1 : techVerifies env.t1 hwnd <;> cases h2 : techVerifies env.t2 hwnd <;>
    cases hr : (technique3 hwnd env.t3).2.1 <;>
    cases hv : (technique3 hwnd env.t3).1 <;>
    cases h4 : techVerifies env.t4 hwnd <;>
    simp [hw, hp, h1, h2, hr, hv, h4, saveLast_idem]

/-- C10: whenever `focus_window` succeeds, the only part of the persisted
configuration it modified is the `last_focused` entry of the target
application: the global tunables, `window_classes` and `app_configs` sections
are unchanged, and so is the `last_focused` entry of every other
application. -/
theorem focus_window_frame {G W A : Type} (cfg : Config G W A) (appName : String)
    (hwnd : Nat) (env : FocusEnv)
    (hs : (focus_window cfg appName hwnd env).1 = true) :
    (focus_window cfg appName hwnd env).2.1.globalCfg = cfg.globalCfg ∧
    (focus_window cfg appName hwnd env).2.1.window_classes = cfg.window_classes ∧
    (focus_window cfg appName hwnd env).2.1.app_configs = cfg.app_configs ∧
    ∀ other, other ≠ appName →
      dictGet (focus_window cfg appName hwnd env).2.1.last_focused other
        = dictGet cfg.last_focused other := by
  rcases focus_window_config_cases cfg appName hwnd env with h | h <;> rw [h]
  · exact ⟨rfl, rfl, rfl, fun other _ => rfl⟩
  · exact ⟨rfl, rfl, rfl,
      fun other hne => dictGet_dictSet_ne cfg.last_focused appName other hwnd hne⟩

/-- C10 witness: technique 1 succeeds for app "app"; the `last_focused` entry
of the other application "other" is untouched. -/
theorem focus_window_frame_witness :
    ((focus_window (Config.mk () () [("other", 9)] ()) "app" 7
        (FocusEnv.mk true false (TechOutcome.fg 7) (TechOutcome.fg 0)
          (Tech3Env.mk 0 false 0 0 false false 0 false) (TechOutcome.fg 0))).1 = true) ∧
    dictGet (focus_window (Config.mk () () [("other", 9)] ()) "app" 7
        (FocusEnv.mk true false (TechOutcome.fg 7) (TechOutcome.fg 0)
          (Tech3Env.mk 0 false 0 0 false false 0 false) (TechOutcome.fg 0))).2.1.last_focused
        "other"
      = dictGet [("other", 9)] "other" :=
  ⟨by decide,
   (focus_window_frame (Config.mk () () [("other", 9)] ()) "app" 7
       (FocusEnv.mk true false (TechOutcome.fg 7) (TechOutcome.fg 0)
         (Tech3Env.mk 0 false 0 0 false false 0 false) (TechOutcome.fg 0))
       (by decide)).2.2.2 "other" (by decide)⟩

/-! ## Tab Cycle Engine (chrome_tab_switcher.py)

`cycle_through_tabs` drives simulated key presses and reads the foreground
window title after each one.  The titles observed are a parameter:
`entryTitle` is the title read at entry (before any key press), `titleAt 0`
the title after the initial Ctrl+1, and `titleAt k` (k ≥ 1) the title after
the k-th Ctrl+Tab.  The result records the outcome, the source's
`tabs_checked` counter at exit, the keys sent in order, the
`last_positions[domain]` update (if any), and the number of title reads
performed after entry. -/

/-- The key combinations sent by `cycle_through_tabs`. -/
inductive TabKey where
  | ctrl1 : TabKey
  | ctrlTab : TabKey
deriving DecidableEq

/-- Outcome of one `cycle_through_tabs` run. -/
structure TabCycleResult where
  success : Bool
  tabsChecked : Nat
  keys : List TabKey
  newPos : Option Nat
  reads : Nat
deriving DecidableEq

/-- The hard-coded extra patterns for perplexity.ai in `is_matching_tab`. -/
def perplexityPatterns : List String :=
  ["i\x27m looking for", "perplexity search", "perplexity - ", "perplexity ai",
   "perplexity.ai/search"]

/-- `ChromeTabSwitcher.is_matching_tab`: case-insensitive containment of any
pattern (base patterns built from the domain, hard-coded domain-specific
patterns, then the configured `url_patterns` and `title_patterns`) in the
title.  An empty domain matches everything; an empty title matches nothing. -/
def is_matching_tab (domain : String) (urlPats titlePats : List String)
    (title : String) : Bool :=
  if domain == "" then true
  else if title == "" then false
  else
    let titleLower := pyLower title
    let domainSpecific := if domain == "perplexity.ai" then perplexityPatterns else []
    let basePats := [domain, "www." ++ domain, domain ++ "/", "www." ++ domain ++ "/",
      "https://" ++ domain, "https://www." ++ domain, firstLabel domain]
    let allPats := basePats ++ domainSpecific ++ urlPats ++ titlePats
    allPats.any (fun p => pyIn (pyLower p) titleLower)

/-- The `while tabs_checked < max_tabs` loop of `cycle_through_tabs`.  The
fuel argument equals `maxTabs - tabs` (the number of guard-passing iterations
left, since `tabs_checked` increases by one on every continuing iteration);
each iteration sends Ctrl+Tab, reads the title, breaks on an already-seen
title, returns with the recorded position on a match, and otherwise continues. -/
def tabLoop (matchF : String → Bool) (titleAt : Nat → String) :
    Nat → List String → Nat → Nat → List TabKey → Nat → TabCycleResult
  | 0, _, tabs, _, keys, reads => ⟨false, tabs, keys, none, reads⟩
  | fuel + 1, seen, tabs, k, keys, reads =>
    if seen.contains (titleAt k) then
      ⟨false, tabs, keys ++ [TabKey.ctrlTab], none, reads + 1⟩
    else if matchF (titleAt k) then
      ⟨true, tabs, keys ++ [TabKey.ctrlTab], some tabs, reads + 1⟩
    else
      tabLoop matchF titleAt fuel (seen ++ [titleAt k]) (tabs + 1) (k + 1)
        (keys ++ [TabKey.ctrlTab]) (reads + 1)

/-- `ChromeTabSwitcher.cycle_through_tabs`: an empty domain fails at once; a
matching entry title succeeds before any key press; otherwise Ctrl+1 is sent,
the first tab's title is tested (recording position 0 on a match), and the
loop walks the remaining tabs. -/
def cycle_through_tabs (domain : String) (urlPats titlePats : List String)
    (maxTabs : Nat) (entryTitle : String) (titleAt : Nat → String) : TabCycleResult :=
  if domain == "" then ⟨false, 0, [], none, 0⟩
  else if is_matching_tab domain urlPats titlePats entryTitle then
    ⟨true, 0, [], none, 0⟩
  else if is_matching_tab domain urlPats titlePats (titleAt 0) then
    ⟨true, 0, [TabKey.ctrl1], some 0, 1⟩
  else
    tabLoop (is_matching_tab domain urlPats titlePats) titleAt (maxTabs - 1)
      [titleAt 0] 1 1 [TabKey.ctrl1] 1

/-- The loop performs at most `fuel` more title reads. -/
theorem tabLoop_reads_le (matchF : String → Bool) (titleAt : Nat → String) :
    ∀ (fuel : Nat) (seen : List String) (tabs k : Nat) (keys : List TabKey)
      (reads : Nat),
      (tabLoop matchF titleAt fuel seen tabs k keys reads).reads ≤ reads + fuel
  | 0, _, tabs, _, keys, reads => Nat.le_add_right _ _
  | fuel + 1, seen, tabs, k, keys, reads => by
    unfold tabLoop
    split
    · show reads + 1 ≤ reads + (fuel + 1)
      omega
    · split
      · show reads + 1 ≤ reads + (fuel + 1)
        omega
      · exact (tabLoop_reads_le matchF titleAt fuel (seen ++ [titleAt k]) (tabs + 1)
          (k + 1) (keys ++ [TabKey.ctrlTab]) (reads + 1)).trans (by omega)

/-- The loop's `tabs_checked` counter grows by at most `fuel`. -/
theorem tabLoop_tabs_le (matchF : String → Bool) (titleAt : Nat → String) :
    ∀ (fuel : Nat) (seen : List String) (tabs k : Nat) (keys : List TabKey)
      (reads : Nat),
      (tabLoop matchF titleAt fuel seen tabs k keys reads).tabsChecked ≤ tabs + fuel
  | 0, _, tabs, _, keys, reads => Nat.le_add_right _ _
  | fuel + 1, seen, tabs, k, keys, reads => by
    unfold tabLoop
    split
    · show tabs ≤ tabs + (fuel + 1)
      omega
    · split
      · show tabs ≤ tabs + (fuel + 1)
        omega
      · exact (tabLoop_tabs_le matchF titleAt fuel (seen ++ [titleAt k]) (tabs + 1)
          (k + 1) (keys ++ [TabKey.ctrlTab]) (reads + 1)).trans (by omega)

/-! ## C6 -/

/-- C6: for every domain, configuration patterns and title sequence
(including all-identical titles), `cycle_through_tabs` terminates after at
most `max_tabs` title checks: both the number of title reads performed after
entry and the final `tabs_checked` counter are bounded by `max_tabs`
(for any positive configured bound; the default is 20). -/
theorem tab_cycle_bounded (domain : String) (urlPats titlePats : List String)
    (maxTabs : Nat) (entryTitle : String) (titleAt : Nat → String)
    (h : 1 ≤ maxTabs) :
    (cycle_through_tabs domain urlPats titlePats maxTabs entryTitle titleAt).reads
        ≤ maxTabs ∧
    (cycle_through_tabs domain urlPats titlePats maxTabs entryTitle
        titleAt).tabsChecked ≤ maxTabs := by
  unfold cycle_through_tabs
  split
  · exact ⟨Nat.zero_le _, Nat.zero_le _⟩
  · split
    · exact ⟨Nat.zero_le _, Nat.zero_le _⟩
    · split
      · exact ⟨h, Nat.zero_le _⟩
      · constructor
        · exact (tabLoop_reads_le _ titleAt (maxTabs - 1) [titleAt 0] 1 1
            [TabKey.ctrl1] 1).trans (by omega)
        · exact (tabLoop_tabs_le _ titleAt (maxTabs - 1) [titleAt 0] 1 1
            [TabKey.ctrl1] 1).trans (by omega)

/-- C6 witness: bound 20, every observed title identical — the run reads at
most 20 titles. -/
theorem tab_cycle_bounded_witness :
    1 ≤ 20 ∧
    (cycle_through_tabs "claude.ai" [] [] 20 "zzz" (fun _ => "same title")).reads ≤ 20 :=
  ⟨by decide,
   (tab_cycle_bounded "claude.ai" [] [] 20 "zzz" (fun _ => "same title") (by decide)).1⟩

/-! ## C7 -/

/-- C7 counterexample: when the foreground title already matches the domain at
entry, `cycle_through_tabs` reports a match having sent no key at all (in
particular not the jump-to-first-tab combination) and records no position —
the claim says the first action is always the Ctrl+1 key and no match can be
reported before it is sent. -/
theorem tab_cycle_entry_check_counterexample :
    (cycle_through_tabs "claude.ai" [] [] 20 "claude.ai - Chat"
        (fun _ => "x")).success = true ∧
    (cycle_through_tabs "claude.ai" [] [] 20 "claude.ai - Chat"
        (fun _ => "x")).keys = [] ∧
    (cycle_through_tabs "claude.ai" [] [] 20 "claude.ai - Chat"
        (fun _ => "x")).newPos = none := by
  refine ⟨by decide, by decide, by decide⟩

/-- C7 amended: `cycle_through_tabs` first tests the current foreground title
and, if it matches, succeeds immediately with no key sent and no position
recorded; only otherwise is the jump-to-first-tab key sent first, and if the
resulting title matches, position 0 is recorded and the operation succeeds. -/
theorem tab_cycle_first_tab_protocol (domain : String) (urlPats titlePats : List String)
    (maxTabs : Nat) (entryTitle : String) (titleAt : Nat → String)
    (hd : (domain == "") = false) :
    (is_matching_tab domain urlPats titlePats entryTitle = true →
      cycle_through_tabs domain urlPats titlePats maxTabs entryTitle titleAt
        = ⟨true, 0, [], none, 0⟩) ∧
    (is_matching_tab domain urlPats titlePats entryTitle = false →
      is_matching_tab domain urlPats titlePats (titleAt 0) = true →
      cycle_through_tabs domain urlPats titlePats maxTabs entryTitle titleAt
        = ⟨true, 0, [TabKey.ctrl1], some 0, 1⟩) := by
  constructor
  · intro hm
    simp [cycle_through_tabs, hd, hm]
  · intro hm hf
    simp [cycle_through_tabs, hd, hm, hf]

/-- C7 amended witness: entry title "zzz" does not match, the first tab's
title does: Ctrl+1 is the only key sent and position 0 is recorded. -/
theorem tab_cycle_first_tab_protocol_witness :
    (("claude.ai" : String) == "") = false ∧
    is_matching_tab "claude.ai" [] [] "zzz" = false ∧
    is_matching_tab "claude.ai" [] [] "claude.ai tab" = true ∧
    cycle_through_tabs "claude.ai" [] [] 20 "zzz" (fun _ => "claude.ai tab")
      = ⟨true, 0, [TabKey.ctrl1], some 0, 1⟩ :=
  ⟨by decide, by decide, by decide,
   (tab_cycle_first_tab_protocol "claude.ai" [] [] 20 "zzz"
       (fun _ => "claude.ai tab") (by decide)).2 (by decide) (by decide)⟩

/-! ## Log sinks (C9) -/

/-- Python list slicing `lines[i:]` for an arbitrary integer index
(negative indices count from the end, clamped at the list bounds). -/
def pyDropFrom (lines : List String) (i : Int) : List String :=
  if 0 ≤ i then lines.drop i.toNat
  else lines.drop (Int.toNat ((lines.length : Int) + i))

/-- `AppFocuser.log`: opens the log file in append mode and writes one line.
No truncation is performed — the `max_log_lines` tunable present in this
class's configuration defaults is never read, hence the unused parameter. -/
def appFocuserLog (_maxLogLines : Nat) (lines : List String) (entry : String) :
    List String :=
  lines ++ [entry]

/-- `ChromeTabSwitcher.log`: reads the existing lines, keeps only the last
`max_log_lines - 1` of them when the file already has at least
`max_log_lines` lines (Python slice `existing_lines[-(max_lines - 1):]`),
then writes them back followed by the new line. -/
def chromeLog (maxLines : Nat) (existing : List String) (entry : String) :
    List String :=
  let kept :=
    if existing.length ≥ maxLines then
      pyDropFrom existing (-((maxLines : Int) - 1))
    else existing
  kept ++ [entry]

/-- C9: at the default bound `max_log_lines = 1000`, a write to an
application-focus log that already holds 1000 lines produces 1001 lines —
`AppFocuser.log` never drops old lines, violating the claimed bound — while
the same write through `ChromeTabSwitcher.log` keeps the file at 1000 lines
as the claim demands. -/
theorem log_bounding_divergence :
    (appFocuserLog 1000 (List.replicate 1000 "line") "entry").length = 1001 ∧
    1000 < (appFocuserLog 1000 (List.replicate 1000 "line") "entry").length ∧
    (chromeLog 1000 (List.replicate 1000 "line") "entry").length = 1000 := by
  refine ⟨?_, ?_, ?_⟩
  · simp only [appFocuserLog, List.length_append, List.length_replicate,
      List.length_cons, List.length_nil]
  · simp only [appFocuserLog, List.length_append, List.length_replicate,
      List.length_cons, List.length_nil]
    norm_num
  · have hn : ¬ (0 : Int) ≤ -((1000 : Int) - 1) := by norm_num
    simp only [chromeLog, pyDropFrom, List.length_replicate, ge_iff_le, le_refl,
      if_true, if_neg hn, List.length_append, List.length_drop]
    norm_num
